import Mathlib

/-!
# Verification of the DenoProxy request handlers

A shallow embedding of `src/main.ts` (a minimal forward HTTP proxy for
Deno).  The proxy has two entry points:

* `handleConnect` — CONNECT tunneling: parse `host:port` from the request
  URL, open an outbound TCP connection, answer
  `HTTP/1.1 200 Connection Established\r\n\r\n` on success (or a 502 on
  failure), then relay bytes in both directions with
  `Promise.race([Deno.copy(conn, targetConn), Deno.copy(targetConn, conn)])`
  and finally close both connections inside a single try/catch.

* `handleHttpRequest` — plain forwarding: rewrite the URL hostname by
  path prefix (`/translate_a/`, `/translate_tts`, `/translate` go to
  `translate.googleapis.com`, everything else to `translate.google.com`),
  force `https:`, drop the `Proxy-Connection` header, conditionally fix
  `Host`, `fetch` the rewritten request, inject CORS headers with
  `Headers.set`, and on any thrown error answer a synthetic
  `500 Proxy error: …` response.

Effectful primitives are modelled explicitly: the outcome of
`Deno.connect` / `fetch`, the byte streams each tunnel peer sends, the
settle times of the two directional copies (for `Promise.race`), and
whether the individual `close()` / error-response writes throw, are all
inputs of the embedding; the functions return the full observable outcome
(bytes written to each peer, which connections were closed, whether an
exception escaped).
-/

namespace DenoProxy

/-- `new TextEncoder().encode s` for the ASCII strings this program writes:
the UTF-8 bytes of `s`, one byte per character. -/
def encodeAscii (s : String) : List Nat :=
  s.data.map Char.toNat

/-- The literal success status line of `handleConnect` (src/main.ts line 24). -/
def status200 : String := "HTTP/1.1 200 Connection Established\r\n\r\n"

/-- The literal error response of `handleConnect` (src/main.ts line 44). -/
def resp502 : String :=
  "HTTP/1.1 502 Bad Gateway\r\nContent-Length: 22\r\n\r\nProxy connection failed"

/-! ## CONNECT tunneling (`handleConnect`, src/main.ts lines 11–52) -/

/-- The effectful environment a single run of `handleConnect` interacts
with.  Each field fixes the answer one of the runtime primitives gives
during that run. -/
structure ConnectEnv where
  /-- Result of `new URL(req.url)` (line 12) followed by reading
  `url.hostname` / `url.port || "443"`: `some (hostname, port)` when the
  URL parses, `none` when the `URL` constructor throws on a malformed
  CONNECT authority.  Note lines 12–14 run *before* the `try` block. -/
  parsedTarget : Option (String × Nat)
  /-- Whether `Deno.connect({hostname, port})` (line 20) succeeds. -/
  connectOk : Bool
  /-- Bytes the client sends into the tunnel after the 200 response. -/
  clientBytes : List Nat
  /-- Bytes the target sends into the tunnel. -/
  targetBytes : List Nat
  /-- Settle time of the `Deno.copy(conn, targetConn)` promise (line 35). -/
  clientToTargetTime : Nat
  /-- Settle time of the `Deno.copy(targetConn, conn)` promise (line 36). -/
  targetToClientTime : Nat
  /-- Whether the first copy promise to settle settles by rejection
  (a mid-relay I/O error), making `Promise.race` (line 38) reject. -/
  midRelayError : Bool
  /-- How many client bytes were already through when a mid-relay error
  cut the client→target copy short. -/
  c2tCut : Nat
  /-- How many target bytes were already through when a mid-relay error
  cut the target→client copy short. -/
  t2cCut : Nat
  /-- Whether `conn.write` of the 502 error response (line 44) throws. -/
  errWriteFails : Bool
  /-- Whether `targetConn.close()` (line 48) throws, e.g. with a
  `BadResource` "already closed" error. -/
  targetCloseFails : Bool

/-- Everything observable about one run of `handleConnect`. -/
structure ConnectOutcome where
  /-- Concatenation of all bytes written to the client connection. -/
  clientData : List Nat
  /-- Concatenation of all bytes written to the target connection. -/
  targetData : List Nat
  /-- Whether the tunnel was established (200 written, copies started). -/
  tunnelEstablished : Bool
  /-- The time at which `await Promise.race([...])` (line 38) settles,
  `none` when control never reaches the race. -/
  relaySettleTime : Option Nat
  /-- Whether `targetConn?.close()` (line 48) actually invoked `close`. -/
  targetCloseCalled : Bool
  /-- Whether `conn.close()` (line 49) was invoked. -/
  clientCloseCalled : Bool
  /-- Whether an exception escaped `handleConnect` uncaught. -/
  raised : Bool
  deriving DecidableEq, Repr

/-- `Promise.race` settles as soon as the *first* of its two promises
settles (fulfilled or rejected). -/
def raceTime (a b : Nat) : Nat := min a b

/-- `Promise.all` / `Promise.allSettled` would settle only when *both*
promises have settled; `handleConnect` does not use it, but `joinTime`
names the alternative the race is contrasted with. -/
def joinTime (a b : Nat) : Nat := max a b

/-- Shallow embedding of `handleConnect` (src/main.ts lines 11–52).

* Line 12 `new URL(req.url)` runs before the `try`; if it throws
  (`parsedTarget = none`) the exception escapes: nothing is written and
  neither connection is closed by this function.
* On `Deno.connect` success: the 200 status line is written, then the two
  `Deno.copy` calls relay the streams (each delivers its whole source
  stream, or only a prefix of it when a mid-relay error cuts it short)
  and `Promise.race` settles at the earlier of the two settle times.
  A rejected race is caught by the `catch`, which writes the 502 response
  (its own write errors ignored).
* On `Deno.connect` failure: the `catch` writes the 502 response,
  ignoring write errors; `targetConn` is `undefined` so the optional
  chain `targetConn?.close()` does not call `close`.
* The `finally` wraps `targetConn?.close(); conn.close()` in a *single*
  try/catch, so when `targetConn.close()` throws, `conn.close()` is
  never executed. -/
def handleConnect (env : ConnectEnv) : ConnectOutcome :=
  match env.parsedTarget with
  | none =>
      { clientData := []
        targetData := []
        tunnelEstablished := false
        relaySettleTime := none
        targetCloseCalled := false
        clientCloseCalled := false
        raised := true }
  | some _ =>
      if env.connectOk then
        let t2c := if env.midRelayError then env.targetBytes.take env.t2cCut
                   else env.targetBytes
        let c2t := if env.midRelayError then env.clientBytes.take env.c2tCut
                   else env.clientBytes
        { clientData :=
            encodeAscii status200 ++ t2c ++
              (if env.midRelayError then
                 (if env.errWriteFails then [] else encodeAscii resp502)
               else [])
          targetData := c2t
          tunnelEstablished := true
          relaySettleTime :=
            some (raceTime env.clientToTargetTime env.targetToClientTime)
          targetCloseCalled := true
          clientCloseCalled := !env.targetCloseFails
          raised := false }
      else
        { clientData := if env.errWriteFails then [] else encodeAscii resp502
          targetData := []
          tunnelEstablished := false
          relaySettleTime := none
          targetCloseCalled := false
          clientCloseCalled := true
          raised := false }

/-! ## Plain HTTP forwarding (`handleHttpRequest`, src/main.ts lines 59–113) -/

/-- The relevant fields of a JavaScript `URL` object. -/
structure JsUrl where
  /-- `url.protocol`, including the trailing colon, e.g. `"https:"`. -/
  protocol : String
  /-- `url.hostname`. -/
  hostname : String
  /-- `url.pathname`. -/
  pathname : String
  deriving DecidableEq, Repr

/-- The API upstream host (src/main.ts line 69). -/
def apiHost : String := "translate.googleapis.com"

/-- The default upstream host (src/main.ts line 73). -/
def defaultHost : String := "translate.google.com"

/-- JavaScript `s.startsWith(p)`: the characters of `p` are a prefix of
the characters of `s`. -/
def jsStartsWith (s p : String) : Bool :=
  p.data.isPrefixOf s.data

/-- The routing test of src/main.ts line 68:
`url.pathname.startsWith('/translate_a/') ||
 url.pathname.startsWith('/translate_tts') ||
 url.pathname.startsWith('/translate')`. -/
def routeIsApi (pathname : String) : Bool :=
  jsStartsWith pathname "/translate_a/" ||
    jsStartsWith pathname "/translate_tts" ||
    jsStartsWith pathname "/translate"

/-- The URL rewrite of src/main.ts lines 68–75: pick the upstream
hostname by path prefix and force the protocol to `https:` on both
branches. -/
def rewriteUrl (u : JsUrl) : JsUrl :=
  if routeIsApi u.pathname then
    { u with hostname := apiHost, protocol := "https:" }
  else
    { u with hostname := defaultHost, protocol := "https:" }

/-- The single-test routing predicate `pathname.startsWith("/translate")`,
written from the refinement claim's words, to be compared with
`routeIsApi`. -/
def routeIsApiSingle (pathname : String) : Bool :=
  jsStartsWith pathname "/translate"

/-- `rewriteUrl` with the three-prefix test replaced by the single
`startsWith("/translate")` test, written from the refinement claim's
words. -/
def rewriteUrlSingle (u : JsUrl) : JsUrl :=
  if routeIsApiSingle u.pathname then
    { u with hostname := apiHost, protocol := "https:" }
  else
    { u with hostname := defaultHost, protocol := "https:" }

/-! ### Header maps

JavaScript `Headers` treats names case-insensitively (ASCII lowercase).
A header map is a list of name/value pairs; `get`, `set` and `delete`
compare names up to ASCII case. -/

/-- ASCII lowercasing of one character, as `Headers` normalises names. -/
def lowerChar (c : Char) : Char :=
  if 65 ≤ c.toNat && c.toNat ≤ 90 then Char.ofNat (c.toNat + 32) else c

/-- Case-insensitive (ASCII) header-name equality. -/
def headerEq (a b : String) : Bool :=
  a.data.map lowerChar == b.data.map lowerChar

/-- `headers.delete(n)`: remove every entry whose name matches `n`. -/
def headersDelete (hs : List (String × String)) (n : String) :
    List (String × String) :=
  hs.filter (fun p => !headerEq p.1 n)

/-- `headers.get(n)`: the value of the entry whose name matches `n`
(`none` ↦ JavaScript `null`). -/
def headersGet (hs : List (String × String)) (n : String) : Option String :=
  (hs.find? (fun p => headerEq p.1 n)).map (·.2)

/-- `headers.set(n, v)`: replace any entries named `n` with the single
entry `(n, v)`. -/
def headersSet (hs : List (String × String)) (n v : String) :
    List (String × String) :=
  headersDelete hs n ++ [(n, v)]

/-- The header rewriting of src/main.ts lines 91–95 on the forwarded
request: `proxyReq.headers.delete('Proxy-Connection')`, then
`if (proxyReq.headers.get('Host') === originalHostname)
   proxyReq.headers.set('Host', url.hostname)`. -/
def forwardHeaders (originalHostname newHostname : String)
    (hs : List (String × String)) : List (String × String) :=
  let hs1 := headersDelete hs "Proxy-Connection"
  if headersGet hs1 "Host" = some originalHostname then
    headersSet hs1 "Host" newHostname
  else
    hs1

/-- The CORS injection of src/main.ts lines 102–104: three `Headers.set`
calls on the response headers. -/
def addCorsHeaders (hs : List (String × String)) : List (String × String) :=
  headersSet
    (headersSet
      (headersSet hs "Access-Control-Allow-Origin" "*")
      "Access-Control-Allow-Methods" "GET, POST, PUT, DELETE, OPTIONS")
    "Access-Control-Allow-Headers" "Content-Type, Authorization"

/-- The relevant fields of a JavaScript `Response`. -/
structure JsResponse where
  status : Nat
  headers : List (String × String)
  body : String
  deriving DecidableEq, Repr

/-- `new Response("Proxy error: " + e.message, { status: 500 })`
(src/main.ts line 111); a string body gives the `Response` the default
`Content-Type: text/plain;charset=UTF-8`. -/
def proxyErrorResponse (msg : String) : JsResponse :=
  { status := 500
    headers := [("content-type", "text/plain;charset=UTF-8")]
    body := "Proxy error: " ++ msg }

/-- Shallow embedding of `handleHttpRequest` (src/main.ts lines 59–113).
`fetchResult` is the outcome of `await fetch(proxyReq)` on the rewritten
request: `.ok` carries the upstream response, `.error` the message of the
thrown transport error.  On success the response is re-wrapped and the
CORS headers are set; on any thrown error the `catch` returns the
synthetic 500 response. -/
def handleHttpRequest (fetchResult : Except String JsResponse) : JsResponse :=
  match fetchResult with
  | .error e => proxyErrorResponse e
  | .ok r => { r with headers := addCorsHeaders r.headers }

/-! ## Helper lemmas about header maps -/

theorem headerEq_iff {a b : String} :
    headerEq a b = true ↔ a.data.map lowerChar = b.data.map lowerChar := by
  simp [headerEq]

theorem headerEq_refl (n : String) : headerEq n n = true := by
  simp [headerEq]

theorem headerEq_of_headerEq_of_headerEq {p n m : String}
    (h1 : headerEq p n = true) (h2 : headerEq p m = true) :
    headerEq n m = true := by
  rw [headerEq_iff] at *
  rw [← h1, h2]

theorem headerEq_false_of_right {p n m : String} (h : headerEq n m = false)
    (h1 : headerEq p n = true) : headerEq p m = false := by
  cases hpm : headerEq p m with
  | false => rfl
  | true => rw [headerEq_of_headerEq_of_headerEq h1 hpm] at h; cases h

theorem find?_filter_of_imp {α : Type} {p q : α → Bool}
    (h : ∀ x, p x = true → q x = true) (l : List α) :
    (l.filter q).find? p = l.find? p := by
  induction l with
  | nil => rfl
  | cons a t ih =>
      cases hq : q a with
      | true =>
          rw [List.filter_cons_of_pos hq]
          cases hp : p a with
          | true => rw [List.find?_cons_of_pos _ hp, List.find?_cons_of_pos _ hp]
          | false =>
              rw [List.find?_cons_of_neg _ (by simp [hp]),
                List.find?_cons_of_neg _ (by simp [hp]), ih]
      | false =>
          have hp : p a = false := by
            cases hpa : p a with
            | false => rfl
            | true => rw [h a hpa] at hq; cases hq
          rw [List.filter_cons_of_neg (by simp [hq]),
            List.find?_cons_of_neg _ (by simp [hp]), ih]

theorem headersGet_delete_of_ne {n m : String} (h : headerEq n m = false)
    (hs : List (String × String)) :
    headersGet (headersDelete hs m) n = headersGet hs n := by
  unfold headersGet headersDelete
  rw [find?_filter_of_imp]
  intro x hx
  simp [headerEq_false_of_right h hx]

theorem find?_headersDelete_self (hs : List (String × String)) (n : String) :
    (headersDelete hs n).find? (fun p => headerEq p.1 n) = none := by
  rw [List.find?_eq_none]
  intro x hx
  unfold headersDelete at hx
  have := (List.mem_filter.mp hx).2
  simpa using this

theorem headersGet_set_self (hs : List (String × String)) (n v : String) :
    headersGet (headersSet hs n v) n = some v := by
  unfold headersSet headersGet
  rw [List.find?_append, find?_headersDelete_self]
  simp [headerEq_refl]

theorem filter_headersDelete_self (hs : List (String × String)) (n : String) :
    (headersDelete hs n).filter (fun p => headerEq p.1 n) = [] := by
  rw [List.filter_eq_nil_iff]
  intro x hx
  unfold headersDelete at hx
  have := (List.mem_filter.mp hx).2
  simpa using this

theorem filter_headersSet_self (hs : List (String × String)) (n v : String) :
    (headersSet hs n v).filter (fun p => headerEq p.1 n) = [(n, v)] := by
  unfold headersSet
  rw [List.filter_append, filter_headersDelete_self]
  simp [headerEq_refl]

theorem filter_headersSet_other {n₁ n₂ : String} (h : headerEq n₁ n₂ = false)
    (hs : List (String × String)) (v : String) :
    (headersSet hs n₂ v).filter (fun p => headerEq p.1 n₁) =
      hs.filter (fun p => headerEq p.1 n₁) := by
  have h' : headerEq n₂ n₁ = false := by
    cases h21 : headerEq n₂ n₁ with
    | false => rfl
    | true =>
        rw [headerEq_iff] at h21
        have : headerEq n₁ n₂ = true := by rw [headerEq_iff, h21]
        rw [this] at h; cases h
  unfold headersSet headersDelete
  rw [List.filter_append, List.filter_filter]
  have e1 : hs.filter (fun a => headerEq a.1 n₁ && !headerEq a.1 n₂) =
      hs.filter (fun a => headerEq a.1 n₁) := by
    apply List.filter_congr
    intro x _
    cases hx : headerEq x.1 n₁ with
    | false => simp [hx]
    | true => simp [hx, headerEq_false_of_right h hx]
  rw [e1]
  simp [h']

/-! ## C1 — CONNECT success: literal 200 line, then a transparent relay -/

/-- C1: for every CONNECT request whose target accepts the connection
(the URL parses and `Deno.connect` succeeds) and whose relay is not cut
by a mid-relay error, the bytes written to the client are exactly the
literal `HTTP/1.1 200 Connection Established\r\n\r\n` followed by the
bytes the target sent (so the status line precedes all relaying), and
the bytes written to the target are exactly the bytes the client sent:
the relay is byte-for-byte transparent in both directions. -/
theorem connect_established_transparent (env : ConnectEnv) (t : String × Nat)
    (hp : env.parsedTarget = some t) (hc : env.connectOk = true)
    (he : env.midRelayError = false) :
    (handleConnect env).clientData =
      encodeAscii status200 ++ env.targetBytes ∧
    (handleConnect env).targetData = env.clientBytes := by
  unfold handleConnect
  rw [hp]
  simp [hc, he]

/-- A concrete successful tunnel run for `connect_established_transparent`. -/
def c1Env : ConnectEnv :=
  { parsedTarget := some ("example.com", 443)
    connectOk := true
    clientBytes := [1, 2, 3]
    targetBytes := [4, 5]
    clientToTargetTime := 2
    targetToClientTime := 7
    midRelayError := false
    c2tCut := 0
    t2cCut := 0
    errWriteFails := false
    targetCloseFails := false }

/-- Witness for C1 at the concrete run `c1Env`. -/
theorem connect_established_transparent_witness :
    (handleConnect c1Env).clientData =
      encodeAscii status200 ++ c1Env.targetBytes ∧
    (handleConnect c1Env).targetData = c1Env.clientBytes :=
  connect_established_transparent c1Env ("example.com", 443) rfl rfl rfl

/-! ## C2 — the relay is a race, not a join -/

/-- C2: for every established tunnel, the `await Promise.race` of the
two directional copies settles exactly at the earlier of the two copies'
settle times (so it is bounded by each of them); when the two times
differ it does *not* settle at the later time, i.e. the slower copy is
abandoned rather than awaited; and the teardown invokes
`targetConn.close()`, cutting off the abandoned copy's connection. -/
theorem connect_relay_races (env : ConnectEnv) (t : String × Nat)
    (hp : env.parsedTarget = some t) (hc : env.connectOk = true) :
    (handleConnect env).relaySettleTime =
      some (raceTime env.clientToTargetTime env.targetToClientTime) ∧
    raceTime env.clientToTargetTime env.targetToClientTime ≤
      env.clientToTargetTime ∧
    raceTime env.clientToTargetTime env.targetToClientTime ≤
      env.targetToClientTime ∧
    (env.clientToTargetTime ≠ env.targetToClientTime →
      (handleConnect env).relaySettleTime ≠
        some (joinTime env.clientToTargetTime env.targetToClientTime)) ∧
    (handleConnect env).targetCloseCalled = true := by
  have hsettle : (handleConnect env).relaySettleTime =
      some (raceTime env.clientToTargetTime env.targetToClientTime) := by
    unfold handleConnect
    rw [hp]
    simp [hc]
  refine ⟨hsettle, Nat.min_le_left _ _, Nat.min_le_right _ _, ?_, ?_⟩
  · intro hne hEq
    rw [hsettle] at hEq
    have : raceTime env.clientToTargetTime env.targetToClientTime =
        joinTime env.clientToTargetTime env.targetToClientTime :=
      Option.some.inj hEq
    unfold raceTime joinTime at this
    omega
  · unfold handleConnect
    rw [hp]
    simp [hc]

/-- A concrete tunnel run for `connect_relay_races` in which the
client→target copy settles first. -/
def c2Env : ConnectEnv :=
  { parsedTarget := some ("example.com", 443)
    connectOk := true
    clientBytes := [1]
    targetBytes := [2]
    clientToTargetTime := 3
    targetToClientTime := 9
    midRelayError := false
    c2tCut := 0
    t2cCut := 0
    errWriteFails := false
    targetCloseFails := false }

/-- Witness for C2 at the concrete run `c2Env`. -/
theorem connect_relay_races_witness :
    (handleConnect c2Env).relaySettleTime =
      some (raceTime c2Env.clientToTargetTime c2Env.targetToClientTime) ∧
    raceTime c2Env.clientToTargetTime c2Env.targetToClientTime ≤
      c2Env.clientToTargetTime ∧
    raceTime c2Env.clientToTargetTime c2Env.targetToClientTime ≤
      c2Env.targetToClientTime ∧
    ((handleConnect c2Env).relaySettleTime ≠
      some (joinTime c2Env.clientToTargetTime c2Env.targetToClientTime)) ∧
    (handleConnect c2Env).targetCloseCalled = true := by
  have h := connect_relay_races c2Env ("example.com", 443) rfl rfl
  exact ⟨h.1, h.2.1, h.2.2.1, h.2.2.2.1 (by decide), h.2.2.2.2⟩

/-! ## C3 — teardown: one try/catch wraps both closes -/

/-- A successful tunnel run in which `targetConn.close()` throws an
"already closed" error during teardown. -/
def c3Env : ConnectEnv :=
  { parsedTarget := some ("example.com", 443)
    connectOk := true
    clientBytes := []
    targetBytes := []
    clientToTargetTime := 0
    targetToClientTime := 0
    midRelayError := false
    c2tCut := 0
    t2cCut := 0
    errWriteFails := false
    targetCloseFails := true }

/-- C3: the `finally` of `handleConnect` wraps `targetConn?.close()` and
`conn.close()` in a *single* try/catch, so on a run where
`targetConn.close()` throws an "already closed" error, the error is
swallowed but `conn.close()` is never executed: the client connection is
not closed, contradicting the claim that a tolerated close error never
prevents the other connection from being closed. -/
theorem connect_close_skips_client :
    (handleConnect c3Env).targetCloseCalled = true ∧
    (handleConnect c3Env).clientCloseCalled = false := by
  exact ⟨rfl, rfl⟩

/-! ## C4 — CONNECT failure: 502, except when the URL itself fails to parse -/

/-- A CONNECT run whose target authority is malformed: `new URL(req.url)`
throws, before the `try` block is entered. -/
def c4MalEnv : ConnectEnv :=
  { parsedTarget := none
    connectOk := false
    clientBytes := []
    targetBytes := []
    clientToTargetTime := 0
    targetToClientTime := 0
    midRelayError := false
    c2tCut := 0
    t2cCut := 0
    errWriteFails := false
    targetCloseFails := false }

/-- C4 counterexample: on a malformed target authority the `URL`
constructor throws on line 12, *before* the `try` block, so the
exception escapes `handleConnect`: no bytes at all are written to the
client — in particular no response beginning `HTTP/1.1 502`. -/
theorem connect_malformed_no_502 :
    (encodeAscii "HTTP/1.1 502").isPrefixOf
      (handleConnect c4MalEnv).clientData = false ∧
    (handleConnect c4MalEnv).tunnelEstablished = false ∧
    (handleConnect c4MalEnv).raised = true := by
  exact ⟨rfl, rfl, rfl⟩

/-- C4 (amended): for every CONNECT request whose target authority
parses but is unreachable (`Deno.connect` fails), the tunnel is never
established and — unless the error-response write itself fails, which is
ignored — the client receives a response beginning `HTTP/1.1 502`;
for a malformed target authority the tunnel is never established either,
but the parse error propagates before the `try`, so nothing (in
particular no 502) is written to the client. -/
theorem connect_failure_502 (env : ConnectEnv) :
    ((∃ t, env.parsedTarget = some t) → env.connectOk = false →
      (handleConnect env).tunnelEstablished = false ∧
      (env.errWriteFails = false →
        (encodeAscii "HTTP/1.1 502").isPrefixOf
          (handleConnect env).clientData = true)) ∧
    (env.parsedTarget = none →
      (handleConnect env).tunnelEstablished = false ∧
      (handleConnect env).clientData = [] ∧
      (handleConnect env).raised = true) := by
  constructor
  · rintro ⟨t, hp⟩ hc
    unfold handleConnect
    rw [hp]
    simp [hc]
    intro hw
    rw [hw]
    simp
    decide
  · intro hp
    unfold handleConnect
    rw [hp]
    exact ⟨rfl, rfl, rfl⟩

/-- A CONNECT run whose target authority parses but whose target is
unreachable. -/
def c4FailEnv : ConnectEnv :=
  { parsedTarget := some ("198.51.100.9", 443)
    connectOk := false
    clientBytes := []
    targetBytes := []
    clientToTargetTime := 0
    targetToClientTime := 0
    midRelayError := false
    c2tCut := 0
    t2cCut := 0
    errWriteFails := false
    targetCloseFails := false }

/-- Witness for C4 (amended) at the concrete runs `c4FailEnv` and
`c4MalEnv`. -/
theorem connect_failure_502_witness :
    ((handleConnect c4FailEnv).tunnelEstablished = false ∧
      (encodeAscii "HTTP/1.1 502").isPrefixOf
        (handleConnect c4FailEnv).clientData = true) ∧
    (handleConnect c4MalEnv).clientData = [] :=
  ⟨⟨((connect_failure_502 c4FailEnv).1 ⟨("198.51.100.9", 443), rfl⟩ rfl).1,
    ((connect_failure_502 c4FailEnv).1 ⟨("198.51.100.9", 443), rfl⟩ rfl).2 rfl⟩,
   ((connect_failure_502 c4MalEnv).2 rfl).2.1⟩

/-! ## C5 — upstream hostname by path prefix -/

/-- C5: for every PLAIN request, if the URL path starts with one of the
configured API prefixes (`/translate_a/`, `/translate_tts`,
`/translate`) the rewritten upstream hostname is
`translate.googleapis.com`; for every other path it is
`translate.google.com`. -/
theorem rewrite_hostname_by_path (u : JsUrl) :
    ((jsStartsWith u.pathname "/translate_a/" = true ∨
      jsStartsWith u.pathname "/translate_tts" = true ∨
      jsStartsWith u.pathname "/translate" = true) →
      (rewriteUrl u).hostname = apiHost) ∧
    (¬(jsStartsWith u.pathname "/translate_a/" = true ∨
       jsStartsWith u.pathname "/translate_tts" = true ∨
       jsStartsWith u.pathname "/translate" = true) →
      (rewriteUrl u).hostname = defaultHost) := by
  constructor
  · intro h
    have hb : routeIsApi u.pathname = true := by
      unfold routeIsApi
      rcases h with h | h | h <;> simp [h]
    unfold rewriteUrl
    rw [hb]
    simp
  · intro h
    push_neg at h
    have hb : routeIsApi u.pathname = false := by
      unfold routeIsApi
      simp only [Bool.or_eq_false_iff]
      exact ⟨⟨Bool.not_eq_true _ ▸ Bool.eq_false_iff.mpr (fun hx => h.1 hx),
        Bool.eq_false_iff.mpr (fun hx => h.2.1 hx)⟩,
        Bool.eq_false_iff.mpr (fun hx => h.2.2 hx)⟩
    unfold rewriteUrl
    rw [hb]
    simp

/-- A PLAIN request URL hitting an API prefix. -/
def c5ApiUrl : JsUrl :=
  { protocol := "http:", hostname := "proxy.local", pathname := "/translate_a/t" }

/-- A PLAIN request URL hitting no API prefix. -/
def c5OtherUrl : JsUrl :=
  { protocol := "http:", hostname := "proxy.local", pathname := "/index.html" }

/-- Witness for C5 at the concrete URLs `c5ApiUrl` and `c5OtherUrl`. -/
theorem rewrite_hostname_by_path_witness :
    (rewriteUrl c5ApiUrl).hostname = apiHost ∧
    (rewriteUrl c5OtherUrl).hostname = defaultHost :=
  ⟨(rewrite_hostname_by_path c5ApiUrl).1 (Or.inl (by decide)),
   (rewrite_hostname_by_path c5OtherUrl).2 (by decide)⟩

/-! ## C6 — the rewritten target is always https with a nonempty host -/

/-- C6: for every PLAIN request — whatever the inbound protocol,
hostname and path — the rewritten URL has protocol `https:` and a
nonempty hostname, on both branches of the path-prefix mapping. -/
theorem rewrite_target_https_nonempty (u : JsUrl) :
    (rewriteUrl u).protocol = "https:" ∧ (rewriteUrl u).hostname ≠ "" := by
  unfold rewriteUrl
  cases h : routeIsApi u.pathname with
  | true =>
      refine ⟨rfl, ?_⟩
      show apiHost ≠ ""
      decide
  | false =>
      refine ⟨rfl, ?_⟩
      show defaultHost ≠ ""
      decide

/-! ## C10 — the three-prefix test versus the single `/translate` test -/

/-- The URL of the claim's example path `/translation`. -/
def c10TranslationUrl : JsUrl :=
  { protocol := "http:", hostname := "proxy.local", pathname := "/translation" }

/-- C10 counterexample: `/translation` does *not* begin with the
characters `/translate` (its tenth character is `i`, not `e`), the
three-prefix routing test rejects it, and it resolves to the default
upstream host `translate.google.com`, not the API host — refuting the
claim's assertion that paths such as `/translation` begin with
`/translate` and resolve to the API upstream host. -/
theorem route_translation_not_api :
    jsStartsWith "/translation" "/translate" = false ∧
    routeIsApi "/translation" = false ∧
    (rewriteUrl c10TranslationUrl).hostname = defaultHost := by
  exact ⟨by decide, by decide, by decide⟩

/-- If `q` spells a prefix of `p`, any string starting with `p` also
starts with `q` (JavaScript `startsWith` on character sequences). -/
theorem jsStartsWith_mono {s p q : String}
    (hpq : q.data.isPrefixOf p.data = true) (h : jsStartsWith s p = true) :
    jsStartsWith s q = true := by
  unfold jsStartsWith at *
  rw [ List.isPrefixOf_iff_prefix] at *
  exact List.IsPrefix.trans hpq h

/-- C10 (amended): the three-prefix routing test is equivalent to the
single test `pathname.startsWith("/translate")` — because `/translate`
is a string prefix of `/translate_a/` and of `/translate_tts`, the first
two disjuncts are redundant, the whole rewrite agrees with the
single-test rewrite, and every path that does begin with the characters
`/translate` (e.g. `/translateX`, but *not* `/translation`, which
diverges at its tenth character) resolves to the API upstream host. -/
theorem route_equiv_single_translate (u : JsUrl) :
    routeIsApi u.pathname = routeIsApiSingle u.pathname ∧
    rewriteUrl u = rewriteUrlSingle u ∧
    (routeIsApiSingle u.pathname = true → (rewriteUrl u).hostname = apiHost) := by
  have hequiv : routeIsApi u.pathname = routeIsApiSingle u.pathname := by
    unfold routeIsApi routeIsApiSingle
    cases h : jsStartsWith u.pathname "/translate" with
    | true => simp [h]
    | false =>
        have h1 : jsStartsWith u.pathname "/translate_a/" = false := by
          cases hh : jsStartsWith u.pathname "/translate_a/" with
          | false => rfl
          | true => rw [jsStartsWith_mono (by decide) hh] at h; cases h
        have h2 : jsStartsWith u.pathname "/translate_tts" = false := by
          cases hh : jsStartsWith u.pathname "/translate_tts" with
          | false => rfl
          | true => rw [jsStartsWith_mono (by decide) hh] at h; cases h
        simp [h, h1, h2]
  refine ⟨hequiv, ?_, ?_⟩
  · unfold rewriteUrl rewriteUrlSingle
    rw [hequiv]
  · intro hs
    unfold rewriteUrl
    rw [hequiv, hs]
    simp

/-- The URL of the path `/translateX`, which does begin with
`/translate`. -/
def c10TranslateXUrl : JsUrl :=
  { protocol := "http:", hostname := "proxy.local", pathname := "/translateX" }

/-- Witness for C10 (amended) at the concrete URL `c10TranslateXUrl`. -/
theorem route_equiv_single_translate_witness :
    rewriteUrl c10TranslateXUrl = rewriteUrlSingle c10TranslateXUrl ∧
    (rewriteUrl c10TranslateXUrl).hostname = apiHost :=
  ⟨(route_equiv_single_translate c10TranslateXUrl).2.1,
   (route_equiv_single_translate c10TranslateXUrl).2.2 (by decide)⟩

/-! ## C7 — forwarded-request headers -/

/-- C7: for every PLAIN request, the forwarded header map has every
`Proxy-Connection` entry removed (case-insensitively, unconditionally);
and the `Host` header is replaced by the rewritten upstream hostname
exactly when a `Host` header is present and equal to the original
inbound hostname — when it is absent or already different, the `Host`
lookup is unchanged. -/
theorem forward_headers_spec (o n : String) (hs : List (String × String)) :
    (∀ p ∈ forwardHeaders o n hs, headerEq p.1 "Proxy-Connection" = false) ∧
    (headersGet hs "Host" = some o →
      headersGet (forwardHeaders o n hs) "Host" = some n) ∧
    (headersGet hs "Host" ≠ some o →
      headersGet (forwardHeaders o n hs) "Host" = headersGet hs "Host") := by
  have hHostPC : headerEq "Host" "Proxy-Connection" = false := by decide
  have hget : headersGet (headersDelete hs "Proxy-Connection") "Host" =
      headersGet hs "Host" := headersGet_delete_of_ne hHostPC hs
  refine ⟨?_, ?_, ?_⟩
  · intro p hp
    unfold forwardHeaders at hp
    by_cases hcond :
        headersGet (headersDelete hs "Proxy-Connection") "Host" = some o
    · rw [if_pos hcond] at hp
      unfold headersSet at hp
      rcases List.mem_append.mp hp with h | h
      · unfold headersDelete at h
        have h' := (List.mem_filter.mp (List.mem_filter.mp h).1).2
        simpa using h'
      · have h' : p = ("Host", n) := by simpa using h
        rw [h']
        exact hHostPC
    · rw [if_neg hcond] at hp
      unfold headersDelete at hp
      have h' := (List.mem_filter.mp hp).2
      simpa using h'
  · intro hh
    unfold forwardHeaders
    rw [if_pos (by rw [hget]; exact hh)]
    exact headersGet_set_self _ "Host" n
  · intro hh
    unfold forwardHeaders
    rw [if_neg (by rw [hget]; exact hh)]
    exact hget

/-- A concrete inbound header map carrying `Proxy-Connection` and a
`Host` equal to the original hostname. -/
def c7Headers : List (String × String) :=
  [("Proxy-Connection", "keep-alive"), ("Host", "proxy.example"),
   ("Accept", "*/*")]

/-- A concrete inbound header map whose `Host` differs from the original
hostname. -/
def c7OtherHeaders : List (String × String) :=
  [("Host", "elsewhere.example")]

/-- Witness for C7 at the concrete header maps `c7Headers` and
`c7OtherHeaders` with original hostname `proxy.example` and rewritten
hostname `translate.google.com`. -/
theorem forward_headers_spec_witness :
    headerEq ("Host", "translate.google.com").1 "Proxy-Connection" = false ∧
    headersGet (forwardHeaders "proxy.example" "translate.google.com"
      c7Headers) "Host" = some "translate.google.com" ∧
    headersGet (forwardHeaders "proxy.example" "translate.google.com"
      c7OtherHeaders) "Host" = headersGet c7OtherHeaders "Host" :=
  ⟨(forward_headers_spec "proxy.example" "translate.google.com" c7Headers).1
      ("Host", "translate.google.com") (by decide),
   (forward_headers_spec "proxy.example" "translate.google.com"
      c7Headers).2.1 (by decide),
   (forward_headers_spec "proxy.example" "translate.google.com"
      c7OtherHeaders).2.2 (by decide)⟩

/-! ## C8 — CORS headers set exactly once -/

/-- C8: for every PLAIN response header map — whatever the upstream set,
including a differing `Access-Control-Allow-Origin` — the CORS injection
leaves exactly one `Access-Control-Allow-Origin` entry and its value is
`*`, exactly one `Access-Control-Allow-Methods` entry with the
configured method list, and exactly one `Access-Control-Allow-Headers`
entry with the configured header list (names compared
case-insensitively, so no duplicate under any capitalisation). -/
theorem cors_headers_exactly_once (hs : List (String × String)) :
    (addCorsHeaders hs).filter
        (fun p => headerEq p.1 "Access-Control-Allow-Origin") =
      [("Access-Control-Allow-Origin", "*")] ∧
    (addCorsHeaders hs).filter
        (fun p => headerEq p.1 "Access-Control-Allow-Methods") =
      [("Access-Control-Allow-Methods", "GET, POST, PUT, DELETE, OPTIONS")] ∧
    (addCorsHeaders hs).filter
        (fun p => headerEq p.1 "Access-Control-Allow-Headers") =
      [("Access-Control-Allow-Headers", "Content-Type, Authorization")] := by
  unfold addCorsHeaders
  refine ⟨?_, ?_, ?_⟩
  · rw [filter_headersSet_other (by decide), filter_headersSet_other (by decide),
      filter_headersSet_self]
  · rw [filter_headersSet_other (by decide), filter_headersSet_self]
  · rw [filter_headersSet_self]

/-! ## C9 — upstream fetch failure yields a synthetic 500 -/

/-- C9: for every PLAIN request whose `fetch` to the upstream throws a
transport error, the client receives the synthetic response built in the
`catch`: status 500 with the plaintext body `Proxy error: <message>`
(a string-bodied `Response`, so `Content-Type` is
`text/plain;charset=UTF-8`) — never the raw thrown error. -/
theorem fetch_failure_synthetic_500 (msg : String) :
    handleHttpRequest (Except.error msg) = proxyErrorResponse msg ∧
    (handleHttpRequest (Except.error msg)).status = 500 ∧
    (handleHttpRequest (Except.error msg)).body = "Proxy error: " ++ msg ∧
    headersGet (handleHttpRequest (Except.error msg)).headers "Content-Type" =
      some "text/plain;charset=UTF-8" := by
  refine ⟨rfl, rfl, rfl, ?_⟩
  show headersGet [("content-type", "text/plain;charset=UTF-8")] "Content-Type" =
    some "text/plain;charset=UTF-8"
  decide

end DenoProxy
